import Mathlib

/-!
Verification of the movie-app front end (`src/App.jsx`) against its
natural-language specification.

The file shallowly embeds the two resolvers of `App.jsx`:

* `fetchMovies` (the Search Resolver, `App.jsx` lines 31-69): given a query
  and the outcomes of its external calls (the TMDB fetch and the
  `updateSearchCount` write), it computes the final React state
  (`movieList`, `errorMessage`, `isLoading`) and the side effects issued
  (network reads, counter-increment writes, chosen endpoint).
* `fetchTrendingMovies` (the Trending Resolver, `App.jsx` lines 71-112):
  given the outcomes of the cache reads (`getTrendingMovies`) and of the
  live trending fetch, it computes the final `trendingMovies` state and the
  effects issued.

External collaborators (the TMDB HTTP service and the Appwrite store) are
opaque: their outcomes are fields of an environment record, and theorems
quantify over all outcomes.  Movie records are passed through verbatim by
the code, so they are modelled as opaque identifiers (`Movie := Nat`).
Query strings are modelled as their byte sequences (`List Nat`, each
element < 256 for real UTF-8 input), which is the level at which
`encodeURIComponent` / percent-decoding round-trip.
-/

/-- Movies are opaque records passed through verbatim by `App.jsx`;
we model each by an opaque identifier. -/
abbrev Movie := Nat

/-- A query string, as its sequence of UTF-8 bytes.  The empty string is
`[]`; JavaScript string truthiness (`query ? _ : _`) is `q ≠ []`. -/
abbrev Query := List Nat

/-! ## Percent encoding (`encodeURIComponent`, `App.jsx` line 41)

JavaScript `encodeURIComponent` leaves unescaped exactly the bytes
`A-Z a-z 0-9 - _ . ! ~ * ( )` and the apostrophe (0x27), and replaces every
other byte `b` of the UTF-8 encoding by `%XY` with `XY` the uppercase hex
digits of `b`. -/

/-- The bytes `encodeURIComponent` leaves unescaped:
`A-Z`, `a-z`, `0-9`, and `- _ . ! ~ * ( )` and the apostrophe (0x27). -/
def isUnreservedByte (b : Nat) : Bool :=
  (65 ≤ b && b ≤ 90) || (97 ≤ b && b ≤ 122) || (48 ≤ b && b ≤ 57) ||
  b = 45 || b = 95 || b = 46 || b = 33 || b = 126 || b = 42 || b = 39 ||
  b = 40 || b = 41

/-- Code of the uppercase hex digit of a value `n < 16`
(`0`-`9` are 48-57, `A`-`F` are 65-70). -/
def hexDigitCh (n : Nat) : Nat :=
  if n < 10 then 48 + n else 55 + n

/-- `encodeURIComponent` on a single byte. -/
def encodeByte (b : Nat) : List Nat :=
  if isUnreservedByte b then [b]
  else [37, hexDigitCh (b / 16), hexDigitCh (b % 16)]

/-- `encodeURIComponent` on a byte string. -/
def encodeURIComponent (q : List Nat) : List Nat :=
  q.flatMap encodeByte

/-- Numeric value of a hex digit code (both cases accepted). -/
def hexVal (c : Nat) : Nat :=
  if 48 ≤ c && c ≤ 57 then c - 48
  else if 65 ≤ c && c ≤ 70 then c - 55
  else if 97 ≤ c && c ≤ 102 then c - 87
  else 0

/-- Percent-decoding: `%XY` becomes the byte with hex value `XY`, every
other byte passes through.  (A trailing malformed escape passes through;
well-formed encoder output never produces one.) -/
def percentDecode : List Nat → List Nat
  | [] => []
  | [c] => [c]
  | [c, d] => [c, d]
  | c :: h :: l :: rest =>
    if c = 37 then (16 * hexVal h + hexVal l) :: percentDecode rest
    else c :: percentDecode (h :: l :: rest)

/-! ## The Search Resolver (`fetchMovies`, `App.jsx` lines 31-69) -/

/-- The JSON body of a TMDB response, as far as `App.jsx` inspects it:
`responseFalse` models the application-level error flag
(the test `data.Response === "False"` at line 51); `errorField` models
`data.Error`, with `none` for an absent or falsy field (so the JS fallback
`data.Error || m` is `errorField.getD m`); `results` models
`data.results`, with `none` for an absent field (so `data.results || []`
is `results.getD []`, while `data.results.length` on an absent field is a
TypeError). -/
structure FetchData where
  responseFalse : Bool
  errorField : Option String
  results : Option (List Movie)
deriving DecidableEq

/-- A settled `fetch` response: `response.ok` and the parsed JSON body. -/
structure FetchResponse where
  ok : Bool
  data : FetchData
deriving DecidableEq

/-- Equality of modelled call outcomes is decidable, so that concrete
runs evaluate by `decide`. -/
instance {α β : Type} [DecidableEq α] [DecidableEq β] :
    DecidableEq (Except α β) := fun x y =>
  match x, y with
  | .error a, .error b =>
    if h : a = b then .isTrue (by rw [h])
    else .isFalse (fun hc => h (Except.error.injEq .. ▸ hc))
  | .error _, .ok _ => .isFalse (fun hc => Except.noConfusion hc)
  | .ok _, .error _ => .isFalse (fun hc => Except.noConfusion hc)
  | .ok a, .ok b =>
    if h : a = b then .isTrue (by rw [h])
    else .isFalse (fun hc => h (Except.ok.injEq .. ▸ hc))

/-- Outcomes of the Search Resolver external calls, fixed before the run:
whether the `VITE_TMDB_API_KEY` credential is configured, the result of
the TMDB `fetch` (`Except.error ()` is a rejected promise, i.e. a network
failure), and the outcome of the awaited `updateSearchCount` write. -/
structure SearchEnv where
  apiKey : Bool
  fetchResult : Except Unit FetchResponse
  updateResult : Except Unit Unit
deriving DecidableEq

/-- The React state that `fetchMovies` reads and writes
(`movieList`, `errorMessage`, `isLoading`). -/
structure SearchState where
  movieList : List Movie
  errorMessage : String
  isLoading : Bool
deriving DecidableEq

/-- The endpoint chosen at `App.jsx` lines 40-42. -/
inductive Endpoint where
  | discover
  | search (encodedQuery : List Nat)
deriving DecidableEq

/-- Observable side effects of one `fetchMovies` run: how many network
reads (`fetch` calls) were issued, which endpoint the read targeted (if
one was issued), and the `updateSearchCount` write calls with their
arguments (query key and movie record). -/
structure SearchEffects where
  reads : Nat
  endpoint : Option Endpoint
  writes : List (Query × Movie)
deriving DecidableEq

/-- The message set by the catch block at `App.jsx` line 65. -/
def genericErrorMsg : String := "Error fetching movies. Please try again later."

/-- The fallback used when `data.Error` is falsy (`App.jsx` line 52). -/
def failedFetchMsg : String := "Failed to fetch movies"

/-- Endpoint selection (`App.jsx` lines 40-42): a truthy (non-empty) query
selects the keyword-search endpoint with the query percent-encoded into
the querystring; an empty query selects the discover-by-popularity
endpoint. -/
def chooseEndpoint (q : Query) : Endpoint :=
  if q = [] then .discover else .search (encodeURIComponent q)

/-- The `finally` block at `App.jsx` line 67: `setIsLoading(false)`. -/
def searchFinally (s : SearchState) (eff : SearchEffects) :
    SearchState × SearchEffects :=
  ({ s with isLoading := false }, eff)

/-- The catch block at `App.jsx` lines 63-66 followed by the `finally`
block: the error is logged and `errorMessage` is set to the generic
message. -/
def searchCatch (s : SearchState) (eff : SearchEffects) :
    SearchState × SearchEffects :=
  searchFinally { s with errorMessage := genericErrorMsg } eff

/-- Shallow embedding of `fetchMovies` (`App.jsx` lines 31-69), mapping
the outcomes of the external calls, the query and the React state before
the run to the state after the run and the effects issued.

Control flow of the source: `setIsLoading(true)` and `setErrorMessage("")`
(lines 32-33); a missing API key throws (lines 36-38); the fetch is
issued against the chosen endpoint (lines 40-43) and a rejection or a
non-ok response throws (lines 45-47); a body with the `Response === "False"`
flag sets the embedded (or generic) error message, clears the list and
returns (lines 51-55); otherwise the list becomes `data.results || []`
(line 57); for a truthy query, `data.results.length` is read (a TypeError
when the field is absent) and when positive `updateSearchCount` is awaited
(lines 59-61) — so a rejection of that write is caught by the same catch
block (lines 63-66); the `finally` block clears the loading flag
(line 67). -/
def fetchMovies (env : SearchEnv) (q : Query) (s0 : SearchState) :
    SearchState × SearchEffects :=
  let s1 : SearchState := { s0 with isLoading := true, errorMessage := "" }
  if !env.apiKey then
    searchCatch s1 ⟨0, none, []⟩
  else
    let ep := chooseEndpoint q
    match env.fetchResult with
    | .error _ => searchCatch s1 ⟨1, some ep, []⟩
    | .ok resp =>
      if !resp.ok then
        searchCatch s1 ⟨1, some ep, []⟩
      else if resp.data.responseFalse then
        searchFinally
          { s1 with errorMessage := resp.data.errorField.getD failedFetchMsg,
                    movieList := [] }
          ⟨1, some ep, []⟩
      else
        let s2 : SearchState := { s1 with movieList := resp.data.results.getD [] }
        if q = [] then
          searchFinally s2 ⟨1, some ep, []⟩
        else
          match resp.data.results with
          | none => searchCatch s2 ⟨1, some ep, []⟩
          | some [] => searchFinally s2 ⟨1, some ep, []⟩
          | some (r :: _) =>
            match env.updateResult with
            | .ok _ => searchFinally s2 ⟨1, some ep, [(q, r)]⟩
            | .error _ => searchCatch s2 ⟨1, some ep, [(q, r)]⟩

/-- The display state derived from the React state by the JSX at
`App.jsx` lines 163-173: the loading indicator while `isLoading`, the
error message when one is set, otherwise the movie grid. -/
inductive ResolutionState where
  | Loading
  | Failed (msg : String)
  | Success (results : List Movie)
deriving DecidableEq

/-- How the JSX maps the React state to the display state. -/
def resolutionState (s : SearchState) : ResolutionState :=
  if s.isLoading then .Loading
  else if s.errorMessage = "" then .Success s.movieList
  else .Failed s.errorMessage

/-! ## The Trending Resolver (`fetchTrendingMovies`, `App.jsx` lines 71-112) -/

/-- Outcomes of the Trending Resolver external calls: the first
`getTrendingMovies` cache read (line 74), the credential check (line 81),
the live trending fetch (lines 85-86), and the fallback `getTrendingMovies`
cache read inside the catch block (line 106).  For the cache reads,
`Except.error ()` is a rejected promise and `none` a null or undefined
return value. -/
structure TrendingEnv where
  cacheRead1 : Except Unit (Option (List Movie))
  apiKey : Bool
  fetchResult : Except Unit FetchResponse
  cacheRead2 : Except Unit (Option (List Movie))
deriving DecidableEq

/-- Observable side effects of one `fetchTrendingMovies` run: whether the
live trending fetch was issued, and the arguments of the
`saveTrendingMovies` persistence calls that were issued. -/
structure TrendingEffects where
  liveCalled : Bool
  saveCalls : List (List Movie)
deriving DecidableEq

/-- The catch block of `fetchTrendingMovies` (`App.jsx` lines 104-111):
one more `getTrendingMovies` read; on success the state becomes
`fallbackTrending || []`; a rejection of the fallback read is only logged,
leaving the state as it was. -/
def trendingCatch (env : TrendingEnv) (s : List Movie) (eff : TrendingEffects) :
    List Movie × TrendingEffects :=
  match env.cacheRead2 with
  | .ok fallback => (fallback.getD [], eff)
  | .error _ => (s, eff)

/-- The live-feed fallback of `fetchTrendingMovies` (`App.jsx` lines
80-111), run when the first cache read yields no entries.

Control flow of the source: a
missing API key throws (lines 81-83); the live trending fetch is issued
(lines 85-86) and a rejection or non-ok response throws (lines 88-90);
`setTrendingMovies(data.results || [])` runs (lines 92-97); when the live
results are non-empty, line 102 evaluates the callee
`saveTrendingMovies` — an identifier that is neither imported (line 9
imports only `getTrendingMovies` and `updateSearchCount`) nor defined
anywhere in the module — so a ReferenceError is raised before the argument
`trendingResults.slice(0, 20)` is computed: no persistence call is ever
issued, and control transfers to the catch block (lines 104-111), which
performs the fallback cache read. -/
def trendingGoLive (env : TrendingEnv) (s0 : List Movie) :
    List Movie × TrendingEffects :=
  if !env.apiKey then trendingCatch env s0 ⟨false, []⟩
  else
    match env.fetchResult with
    | .error _ => trendingCatch env s0 ⟨true, []⟩
    | .ok resp =>
      if !resp.ok then trendingCatch env s0 ⟨true, []⟩
      else
        let trendingResults := resp.data.results.getD []
        if trendingResults.length > 0 then
          trendingCatch env trendingResults ⟨true, []⟩
        else (trendingResults, ⟨true, []⟩)

/-- The full resolver: the first cache read serves a truthy non-empty
result directly (lines 74-78); otherwise the run continues with the
live-feed fallback `trendingGoLive`. -/
def fetchTrendingMovies (env : TrendingEnv) (s0 : List Movie) :
    List Movie × TrendingEffects :=
  match env.cacheRead1 with
  | .error _ => trendingCatch env s0 ⟨false, []⟩
  | .ok cached =>
    match cached with
    | some l => if l.length > 0 then (l, ⟨false, []⟩) else trendingGoLive env s0
    | none => trendingGoLive env s0

/-! ## Failure predicates and concrete runs used by the theorems -/

/-- A cache read outcome that yields no entries: a rejected read, a null
or undefined return, or an empty list. -/
def cacheEmptyOrFailed : Except Unit (Option (List Movie)) → Bool
  | .ok (some l) => l.isEmpty
  | _ => true

/-- A Trending Resolver run whose live-feed step yields no entries:
missing credential, rejected fetch, non-ok response, or a body whose
results array is empty or absent. -/
def trendingLiveEmptyOrFailed (env : TrendingEnv) : Bool :=
  !env.apiKey ||
    match env.fetchResult with
    | .error _ => true
    | .ok resp => !resp.ok || (resp.data.results.getD []).isEmpty

/-- The frame condition on the movie list, stated from the run outcome
(the amended form of the spec sentence): unchanged on a configuration or
transport failure, cleared on a semantic error, and equal to the fetched
results (possibly empty) on every other ok response. -/
def specMovieListAfter (env : SearchEnv) (s0 : SearchState) : List Movie :=
  if env.apiKey = false then s0.movieList
  else
    match env.fetchResult with
    | .error _ => s0.movieList
    | .ok resp =>
      if resp.ok = false then s0.movieList
      else if resp.data.responseFalse then []
      else resp.data.results.getD []

/-- An idle pre-run React state: no movies, no error, not loading. -/
def sIdle : SearchState := ⟨[], "", false⟩

/-- A pre-run React state already displaying one movie. -/
def sPrev : SearchState := ⟨[3], "", false⟩

/-- A run where the search succeeds with one result and the awaited
`updateSearchCount` write is rejected. -/
def envUpdateFail : SearchEnv := ⟨true, .ok ⟨true, ⟨false, none, some [5]⟩⟩, .error ()⟩

/-- A run with no API credential configured. -/
def envNoKey : SearchEnv := ⟨false, .ok ⟨true, ⟨false, none, some [5]⟩⟩, .ok ()⟩

/-- A run where the search succeeds with an empty results array. -/
def envEmptyResults : SearchEnv := ⟨true, .ok ⟨true, ⟨false, none, some []⟩⟩, .ok ()⟩

/-- A run where a 2xx body carries the application-level error flag and an
embedded message. -/
def envSemantic : SearchEnv := ⟨true, .ok ⟨true, ⟨true, some "oops", some [5]⟩⟩, .ok ()⟩

/-- A fully successful search run with two results. -/
def envHappy : SearchEnv := ⟨true, .ok ⟨true, ⟨false, none, some [5, 6]⟩⟩, .ok ()⟩

/-- A Trending Resolver run: first cache read empty, live feed succeeds
with one movie, fallback cache read empty. -/
def envTrendingBug : TrendingEnv :=
  ⟨.ok (some []), true, .ok ⟨true, ⟨false, none, some [7]⟩⟩, .ok (some [])⟩

/-- A Trending Resolver run whose first cache read yields two entries. -/
def envTrendingCache : TrendingEnv := ⟨.ok (some [4, 5]), true, .error (), .error ()⟩

/-- A Trending Resolver run where every external call fails. -/
def envTrendingAllFail : TrendingEnv := ⟨.error (), false, .error (), .error ()⟩

/-! ## Percent-encoding round trip -/

theorem percentDecode_cons_ne (c : Nat) (rest : List Nat) (hc : c ≠ 37) :
    percentDecode (c :: rest) = c :: percentDecode rest := by
  match rest with
  | [] => simp [percentDecode]
  | [d] => simp [percentDecode]
  | d :: e :: rest2 => simp [percentDecode, hc]

theorem percentDecode_escape (h l : Nat) (rest : List Nat) :
    percentDecode (37 :: h :: l :: rest)
      = (16 * hexVal h + hexVal l) :: percentDecode rest := by
  simp [percentDecode]

theorem hexVal_hexDigitCh (n : Nat) (h : n < 16) :
    hexVal (hexDigitCh n) = n := by
  revert h
  revert n
  decide

theorem unreserved_ne_37 (b : Nat) (h : isUnreservedByte b = true) : b ≠ 37 := by
  intro hb
  subst hb
  simp [isUnreservedByte] at h

theorem percentDecode_encodeByte (b : Nat) (hb : b < 256) (rest : List Nat) :
    percentDecode (encodeByte b ++ rest) = b :: percentDecode rest := by
  unfold encodeByte
  by_cases h : isUnreservedByte b = true
  · rw [if_pos h]
    exact percentDecode_cons_ne b rest (unreserved_ne_37 b h)
  · rw [if_neg h]
    have hdiv : b / 16 < 16 := Nat.div_lt_of_lt_mul (by omega)
    have hmod : b % 16 < 16 := Nat.mod_lt _ (by omega)
    calc percentDecode (37 :: hexDigitCh (b / 16) :: hexDigitCh (b % 16) :: rest)
        = (16 * hexVal (hexDigitCh (b / 16)) + hexVal (hexDigitCh (b % 16)))
            :: percentDecode rest := percentDecode_escape _ _ _
      _ = b :: percentDecode rest := by
          rw [hexVal_hexDigitCh _ hdiv, hexVal_hexDigitCh _ hmod]
          congr 1
          omega

/-- Percent-decoding inverts `encodeURIComponent` on every byte string. -/
theorem percentDecode_encodeURIComponent (q : List Nat)
    (h : ∀ b ∈ q, b < 256) :
    percentDecode (encodeURIComponent q) = q := by
  induction q with
  | nil => rfl
  | cons b t ih =>
    have hb : b < 256 := h b (List.mem_cons_self b t)
    have ht : ∀ x ∈ t, x < 256 := fun x hx => h x (List.mem_cons_of_mem b hx)
    show percentDecode (encodeByte b ++ encodeURIComponent t) = b :: t
    rw [percentDecode_encodeByte b hb, ih ht]


/-! ## Helper lemmas about the catch block and the live-feed fallback -/

theorem trendingCatch_fst (env : TrendingEnv) (s : List Movie) (eff : TrendingEffects) :
    (trendingCatch env s eff).1 = s ∨
    ∃ f, env.cacheRead2 = .ok f ∧ (trendingCatch env s eff).1 = f.getD [] := by
  cases hc : env.cacheRead2 with
  | error e =>
    left
    simp [trendingCatch, hc]
  | ok f =>
    right
    exact ⟨f, rfl, by simp [trendingCatch, hc]⟩

theorem trendingCatch_fst_empty (env : TrendingEnv) (s : List Movie)
    (eff : TrendingEffects)
    (h2 : cacheEmptyOrFailed env.cacheRead2 = true) (hs : s = []) :
    (trendingCatch env s eff).1 = [] := by
  subst hs
  cases hc : env.cacheRead2 with
  | error e => simp [trendingCatch, hc]
  | ok f =>
    rcases f with _ | l
    · simp [trendingCatch, hc]
    · rw [hc] at h2
      simp [cacheEmptyOrFailed] at h2
      simp [trendingCatch, hc, h2]

theorem trendingGoLive_fst_cases (env : TrendingEnv) (s0 : List Movie) :
    (trendingGoLive env s0).1 = s0 ∨
    (∃ resp, env.fetchResult = .ok resp ∧
      (trendingGoLive env s0).1 = resp.data.results.getD []) ∨
    (∃ f, env.cacheRead2 = .ok f ∧ (trendingGoLive env s0).1 = f.getD []) := by
  cases hk : env.apiKey
  · have hred : trendingGoLive env s0 = trendingCatch env s0 ⟨false, []⟩ := by
      simp [trendingGoLive, hk]
    rw [hred]
    rcases trendingCatch_fst env s0 ⟨false, []⟩ with h | ⟨f, hf, h⟩
    · exact Or.inl h
    · exact Or.inr (Or.inr ⟨f, hf, h⟩)
  · cases hf : env.fetchResult with
    | error e =>
      have hred : trendingGoLive env s0 = trendingCatch env s0 ⟨true, []⟩ := by
        simp [trendingGoLive, hk, hf]
      rw [hred]
      rcases trendingCatch_fst env s0 ⟨true, []⟩ with h | ⟨f, hf2, h⟩
      · exact Or.inl h
      · exact Or.inr (Or.inr ⟨f, hf2, h⟩)
    | ok resp =>
      cases hok : resp.ok
      · have hred : trendingGoLive env s0 = trendingCatch env s0 ⟨true, []⟩ := by
          simp [trendingGoLive, hk, hf, hok]
        rw [hred]
        rcases trendingCatch_fst env s0 ⟨true, []⟩ with h | ⟨f, hf2, h⟩
        · exact Or.inl h
        · exact Or.inr (Or.inr ⟨f, hf2, h⟩)
      · by_cases hlen : (resp.data.results.getD []).length > 0
        · have hred : trendingGoLive env s0
              = trendingCatch env (resp.data.results.getD []) ⟨true, []⟩ := by
            simp [trendingGoLive, hk, hf, hok, hlen]
          rw [hred]
          rcases trendingCatch_fst env (resp.data.results.getD []) ⟨true, []⟩
            with h | ⟨f, hf2, h⟩
          · exact Or.inr (Or.inl ⟨resp, rfl, h⟩)
          · exact Or.inr (Or.inr ⟨f, hf2, h⟩)
        · refine Or.inr (Or.inl ⟨resp, rfl, ?_⟩)
          simp [trendingGoLive, hk, hf, hok, hlen]

theorem trendingGoLive_fst_empty (env : TrendingEnv) (s0 : List Movie)
    (hs : s0 = []) (hlive : trendingLiveEmptyOrFailed env = true)
    (h2 : cacheEmptyOrFailed env.cacheRead2 = true) :
    (trendingGoLive env s0).1 = [] := by
  cases hk : env.apiKey
  · have hred : trendingGoLive env s0 = trendingCatch env s0 ⟨false, []⟩ := by
      simp [trendingGoLive, hk]
    rw [hred]
    exact trendingCatch_fst_empty env s0 ⟨false, []⟩ h2 hs
  · cases hf : env.fetchResult with
    | error e =>
      have hred : trendingGoLive env s0 = trendingCatch env s0 ⟨true, []⟩ := by
        simp [trendingGoLive, hk, hf]
      rw [hred]
      exact trendingCatch_fst_empty env s0 ⟨true, []⟩ h2 hs
    | ok resp =>
      cases hok : resp.ok
      · have hred : trendingGoLive env s0 = trendingCatch env s0 ⟨true, []⟩ := by
          simp [trendingGoLive, hk, hf, hok]
        rw [hred]
        exact trendingCatch_fst_empty env s0 ⟨true, []⟩ h2 hs
      · have hnil : resp.data.results.getD [] = [] := by
          simp [trendingLiveEmptyOrFailed, hk, hf, hok] at hlive
          simpa using hlive
        simp [trendingGoLive, hk, hf, hok, hnil]

theorem fetchMovies_endpoint_eq
    (env : SearchEnv) (q : Query) (s0 : SearchState) (hk : env.apiKey = true) :
    (fetchMovies env q s0).2.endpoint = some (chooseEndpoint q) := by
  cases hf : env.fetchResult with
  | error e => simp [fetchMovies, hk, hf, searchCatch, searchFinally]
  | ok resp =>
    obtain ⟨rok, flag, ef, res⟩ := resp
    cases rok <;> cases flag <;> by_cases hq : q = [] <;>
      rcases res with _ | (_ | ⟨r, rs⟩) <;>
      cases hu : env.updateResult <;>
      simp [fetchMovies, hk, hf, hq, hu, searchCatch, searchFinally]

/-! ## The claims -/

/-- Claim C1 (code bug): the claim states that when the cache read is
empty and the live trending feed succeeds with at least one result, the
displayed trending list equals the live results, a persistence call is
attempted with at most the first 20 entries, and the displayed result does
not depend on the persistence outcome.  The code violates this: the
persistence callee `saveTrendingMovies` at `App.jsx` line 102 is an
unresolved identifier (line 9 imports only `getTrendingMovies` and
`updateSearchCount`), so the run raises a ReferenceError, issues no
persistence call, and falls into the catch block, which overwrites the
just-displayed live results with the (empty) fallback cache read.  This
theorem evaluates the embedded code at that failing input: first cache
read empty, live feed ok with results `[7]`, fallback cache read empty —
the final list is `[]`, not `[7]`, and no persistence call was issued. -/
theorem trending_live_results_lost_no_persistence :
    (fetchTrendingMovies envTrendingBug []).1 = [] ∧
    (fetchTrendingMovies envTrendingBug []).1 ≠ [7] ∧
    (fetchTrendingMovies envTrendingBug []).2.saveCalls = [] := by
  decide

/-- Claim C2 (counterexample): the claim states that a failure of the
`updateSearchCount` write leaves the displayed state unchanged — movie
list still the fetched results and no error message shown.  At the
concrete input below (non-empty query, fetch ok with results `[5]`,
rejected write) the final state does show an error message, because the
write is awaited inside the try block and its rejection is caught by the
same catch block that handles fetch failures. -/
theorem search_update_failure_error_shown_counterexample :
    (fetchMovies envUpdateFail [98] sIdle).1.movieList = [5] ∧
    (fetchMovies envUpdateFail [98] sIdle).1.errorMessage ≠ "" := by
  decide

/-- Claim C2 (amended): for every non-empty query whose search succeeds
with at least one result, a failure of the counter-increment write leaves
the movie list equal to the fetched results, but sets the generic error
message (the write is awaited inside the try block, so its rejection is
caught by the shared catch block); exactly the one write was issued. -/
theorem search_update_failure_keeps_list_sets_generic_error
    (env : SearchEnv) (q : Query) (s0 : SearchState) (resp : FetchResponse)
    (r : Movie) (rs : List Movie)
    (hk : env.apiKey = true) (hf : env.fetchResult = .ok resp)
    (hok : resp.ok = true) (hflag : resp.data.responseFalse = false)
    (hres : resp.data.results = some (r :: rs)) (hq : q ≠ [])
    (hu : env.updateResult = .error ()) :
    (fetchMovies env q s0).1.movieList = r :: rs ∧
    (fetchMovies env q s0).1.errorMessage = genericErrorMsg ∧
    (fetchMovies env q s0).2.writes = [(q, r)] := by
  simp [fetchMovies, hk, hf, hok, hflag, hres, hq, hu, searchCatch, searchFinally]

/-- Witness for the amended C2 theorem at a concrete run. -/
theorem search_update_failure_keeps_list_sets_generic_error_witness :
    (fetchMovies envUpdateFail [98] sIdle).1.movieList = [5] ∧
    (fetchMovies envUpdateFail [98] sIdle).1.errorMessage = genericErrorMsg ∧
    (fetchMovies envUpdateFail [98] sIdle).2.writes = [([98], 5)] :=
  search_update_failure_keeps_list_sets_generic_error envUpdateFail [98] sIdle
    ⟨true, ⟨false, none, some [5]⟩⟩ 5 [] rfl rfl rfl rfl rfl (by decide) rfl

/-- Claim C3: whenever the provider returns a 2xx (ok) response whose body
carries the application-level error flag, the final display state is
`Failed` with the embedded message when one is present (the generic
`failedFetchMsg` otherwise), and never `Success`. -/
theorem search_semantic_error_never_success
    (env : SearchEnv) (q : Query) (s0 : SearchState) (resp : FetchResponse)
    (hk : env.apiKey = true) (hf : env.fetchResult = .ok resp)
    (hok : resp.ok = true) (hflag : resp.data.responseFalse = true)
    (hmsg : resp.data.errorField ≠ some "") :
    resolutionState (fetchMovies env q s0).1
      = .Failed (resp.data.errorField.getD failedFetchMsg) ∧
    ∀ l, resolutionState (fetchMovies env q s0).1 ≠ .Success l := by
  have hstate : (fetchMovies env q s0).1
      = ⟨[], resp.data.errorField.getD failedFetchMsg, false⟩ := by
    simp [fetchMovies, hk, hf, hok, hflag, searchFinally]
  have hne : resp.data.errorField.getD failedFetchMsg ≠ "" := by
    cases hef : resp.data.errorField with
    | none => simp; decide
    | some m =>
      simp
      intro hm
      exact hmsg (by rw [hef, hm])
  rw [hstate]
  constructor
  · simp [resolutionState, hne]
  · intro l
    simp [resolutionState, hne]

/-- Witness for the C3 theorem at a concrete run with embedded message. -/
theorem search_semantic_error_never_success_witness :
    resolutionState (fetchMovies envSemantic [] sIdle).1 = .Failed "oops" :=
  (search_semantic_error_never_success envSemantic [] sIdle
    ⟨true, ⟨true, some "oops", some [5]⟩⟩ rfl rfl rfl rfl (by decide)).1

/-- Claim C4: whenever the first cache read returns a non-empty list, the
Trending Resolver serves exactly those entries in stored order and the
live trending feed is never called (and no persistence call is issued). -/
theorem trending_cache_hit_serves_cache_without_live_call
    (env : TrendingEnv) (s0 : List Movie) (l : List Movie)
    (hc : env.cacheRead1 = .ok (some l)) (hl : l ≠ []) :
    fetchTrendingMovies env s0 = (l, ⟨false, []⟩) := by
  have hlen : 0 < l.length := List.length_pos.mpr hl
  simp [fetchTrendingMovies, hc, hlen]

/-- Witness for the C4 theorem at a concrete run with two cached entries. -/
theorem trending_cache_hit_serves_cache_without_live_call_witness :
    fetchTrendingMovies envTrendingCache [] = ([4, 5], ⟨false, []⟩) :=
  trending_cache_hit_serves_cache_without_live_call envTrendingCache [] [4, 5]
    rfl (by decide)

/-- Claim C5: when a non-empty query succeeds with at least one result,
exactly one counter-increment write is issued, keyed by the query and
targeting the first result; when the query is empty, or the response
carries an empty or absent results array, zero writes are issued. -/
theorem search_counter_write_policy
    (env : SearchEnv) (q : Query) (s0 : SearchState) :
    (∀ resp r rs, env.apiKey = true → env.fetchResult = .ok resp →
        resp.ok = true → resp.data.responseFalse = false →
        resp.data.results = some (r :: rs) → q ≠ [] →
        (fetchMovies env q s0).2.writes = [(q, r)]) ∧
    (q = [] → (fetchMovies env q s0).2.writes = []) ∧
    (∀ resp, env.fetchResult = .ok resp → resp.data.results.getD [] = [] →
        (fetchMovies env q s0).2.writes = []) := by
  refine ⟨?_, ?_, ?_⟩
  · intro resp r rs hk hf hok hflag hres hq
    cases hu : env.updateResult <;>
      simp [fetchMovies, hk, hf, hok, hflag, hres, hq, hu, searchCatch, searchFinally]
  · intro hq
    subst hq
    cases hk : env.apiKey
    · simp [fetchMovies, hk, searchCatch, searchFinally]
    · cases hf : env.fetchResult with
      | error e => simp [fetchMovies, hk, hf, searchCatch, searchFinally]
      | ok resp =>
        obtain ⟨rok, flag, ef, res⟩ := resp
        cases rok <;> cases flag <;>
          simp [fetchMovies, hk, hf, searchCatch, searchFinally]
  · intro resp hf hres
    cases hk : env.apiKey
    · simp [fetchMovies, hk, searchCatch, searchFinally]
    · obtain ⟨rok, flag, ef, res⟩ := resp
      simp only [] at hres
      cases rok <;> cases flag <;> by_cases hq : q = [] <;>
        rcases res with _ | (_ | ⟨r, rs⟩) <;>
        cases hu : env.updateResult <;>
        simp_all [fetchMovies, hk, hf, searchCatch, searchFinally]

/-- Witness for the C5 theorem at a concrete run with two results. -/
theorem search_counter_write_policy_witness :
    (fetchMovies envHappy [98] sIdle).2.writes = [([98], 5)] :=
  (search_counter_write_policy envHappy [98] sIdle).1
    ⟨true, ⟨false, none, some [5, 6]⟩⟩ 5 [6] rfl rfl rfl rfl rfl (by decide)

/-- Claim C6: with a configured credential, an empty query selects the
discovery/popularity endpoint, and a non-empty query selects the
keyword-search endpoint with the query percent-encoded into the
querystring; the encoded segment percent-decodes back to the original
query for every byte string. -/
theorem search_endpoint_selection_and_encoding
    (env : SearchEnv) (q : Query) (s0 : SearchState) (hk : env.apiKey = true) :
    (q = [] → (fetchMovies env q s0).2.endpoint = some .discover) ∧
    (q ≠ [] →
      (fetchMovies env q s0).2.endpoint = some (.search (encodeURIComponent q)) ∧
      ((∀ b ∈ q, b < 256) → percentDecode (encodeURIComponent q) = q)) := by
  constructor
  · intro hq
    rw [fetchMovies_endpoint_eq env q s0 hk]
    simp [chooseEndpoint, hq]
  · intro hq
    refine ⟨?_, fun h => percentDecode_encodeURIComponent q h⟩
    rw [fetchMovies_endpoint_eq env q s0 hk]
    simp [chooseEndpoint, hq]

/-- Witness for the C6 theorem at a query containing a reserved byte. -/
theorem search_endpoint_selection_and_encoding_witness :
    (fetchMovies envHappy [98, 37, 97] sIdle).2.endpoint
      = some (.search (encodeURIComponent [98, 37, 97])) ∧
    percentDecode (encodeURIComponent [98, 37, 97]) = [98, 37, 97] :=
  ⟨((search_endpoint_selection_and_encoding envHappy [98, 37, 97] sIdle rfl).2
      (by decide)).1,
   ((search_endpoint_selection_and_encoding envHappy [98, 37, 97] sIdle rfl).2
      (by decide)).2 (by decide)⟩

/-- Claim C7: every Trending Resolver run delivers a list to the display
layer — always one of the best-available lists (the pre-run state, the
cached entries, the live results, or the fallback cache contents), never
an error value — and when the initial state is empty and the cache reads
and the live feed all fail or come back empty, the delivered list is
empty. -/
theorem trending_delivers_best_available_list (env : TrendingEnv) (s0 : List Movie) :
    ((fetchTrendingMovies env s0).1 = s0 ∨
     env.cacheRead1 = .ok (some ((fetchTrendingMovies env s0).1)) ∨
     (∃ resp, env.fetchResult = .ok resp ∧
        (fetchTrendingMovies env s0).1 = resp.data.results.getD []) ∨
     (∃ f, env.cacheRead2 = .ok f ∧
        (fetchTrendingMovies env s0).1 = f.getD [])) ∧
    (s0 = [] → cacheEmptyOrFailed env.cacheRead1 = true →
     trendingLiveEmptyOrFailed env = true →
     cacheEmptyOrFailed env.cacheRead2 = true →
     (fetchTrendingMovies env s0).1 = []) := by
  constructor
  · cases hc1 : env.cacheRead1 with
    | error e =>
      have hred : fetchTrendingMovies env s0 = trendingCatch env s0 ⟨false, []⟩ := by
        simp [fetchTrendingMovies, hc1]
      rw [hred]
      rcases trendingCatch_fst env s0 ⟨false, []⟩ with h | ⟨f, hf, h⟩
      · exact Or.inl h
      · exact Or.inr (Or.inr (Or.inr ⟨f, hf, h⟩))
    | ok cached =>
      rcases cached with _ | l
      · have hred : fetchTrendingMovies env s0 = trendingGoLive env s0 := by
          simp [fetchTrendingMovies, hc1]
        rw [hred]
        rcases trendingGoLive_fst_cases env s0 with h | h | h
        · exact Or.inl h
        · exact Or.inr (Or.inr (Or.inl h))
        · exact Or.inr (Or.inr (Or.inr h))
      · rcases Nat.eq_zero_or_pos l.length with hl | hl
        · have hl0 : l = [] := List.length_eq_zero.mp hl
          subst hl0
          have hred : fetchTrendingMovies env s0 = trendingGoLive env s0 := by
            simp [fetchTrendingMovies, hc1]
          rw [hred]
          rcases trendingGoLive_fst_cases env s0 with h | h | h
          · exact Or.inl h
          · exact Or.inr (Or.inr (Or.inl h))
          · exact Or.inr (Or.inr (Or.inr h))
        · have hred : (fetchTrendingMovies env s0).1 = l := by
            simp [fetchTrendingMovies, hc1, hl]
          refine Or.inr (Or.inl ?_)
          rw [hred]
  · intro hs hc1e hlive h2
    cases hc1 : env.cacheRead1 with
    | error e =>
      have hred : fetchTrendingMovies env s0 = trendingCatch env s0 ⟨false, []⟩ := by
        simp [fetchTrendingMovies, hc1]
      rw [hred]
      exact trendingCatch_fst_empty env s0 ⟨false, []⟩ h2 hs
    | ok cached =>
      rcases cached with _ | l
      · have hred : fetchTrendingMovies env s0 = trendingGoLive env s0 := by
          simp [fetchTrendingMovies, hc1]
        rw [hred]
        exact trendingGoLive_fst_empty env s0 hs hlive h2
      · have hl0 : l = [] := by
          rw [hc1] at hc1e
          simpa [cacheEmptyOrFailed] using hc1e
        subst hl0
        have hred : fetchTrendingMovies env s0 = trendingGoLive env s0 := by
          simp [fetchTrendingMovies, hc1]
        rw [hred]
        exact trendingGoLive_fst_empty env s0 hs hlive h2

/-- Witness for the C7 theorem at a run where every external call fails. -/
theorem trending_delivers_best_available_list_witness :
    (fetchTrendingMovies envTrendingAllFail []).1 = [] :=
  (trending_delivers_best_available_list envTrendingAllFail []).2 rfl rfl rfl rfl

/-- Claim C8: with no API credential configured, the Search Resolver fails
immediately — no network read, no write — and the failure is surfaced as a
user-visible message (the generic one) rather than thrown further: the run
terminates normally in the `Failed` display state with the loading flag
cleared and the movie list untouched. -/
theorem search_missing_key_config_failure
    (env : SearchEnv) (q : Query) (s0 : SearchState) (hk : env.apiKey = false) :
    fetchMovies env q s0 =
      (⟨s0.movieList, genericErrorMsg, false⟩, ⟨0, none, []⟩) ∧
    resolutionState (fetchMovies env q s0).1 = .Failed genericErrorMsg := by
  have h1 : fetchMovies env q s0 =
      (⟨s0.movieList, genericErrorMsg, false⟩, ⟨0, none, []⟩) := by
    simp [fetchMovies, hk, searchCatch, searchFinally]
  refine ⟨h1, ?_⟩
  rw [h1]
  have hne : genericErrorMsg ≠ "" := by decide
  simp [resolutionState, hne]

/-- Witness for the C8 theorem at a concrete run without credential. -/
theorem search_missing_key_config_failure_witness :
    fetchMovies envNoKey [] sPrev =
      (⟨sPrev.movieList, genericErrorMsg, false⟩, ⟨0, none, []⟩) ∧
    resolutionState (fetchMovies envNoKey [] sPrev).1 = .Failed genericErrorMsg :=
  search_missing_key_config_failure envNoKey [] sPrev rfl

/-- Claim C9 (counterexample): the claim states that every Search Resolver
invocation performs exactly one network read; at the concrete run below
(no API credential configured) the invocation performs zero reads. -/
theorem search_missing_key_not_one_read_counterexample :
    (fetchMovies envNoKey [] sIdle).2.reads ≠ 1 := by decide

/-- Claim C9 (amended): every Search Resolver invocation performs exactly
one network read when a credential is configured and zero otherwise, and
issues at most one network write. -/
theorem search_read_write_counts
    (env : SearchEnv) (q : Query) (s0 : SearchState) :
    (fetchMovies env q s0).2.reads = (if env.apiKey then 1 else 0) ∧
    (fetchMovies env q s0).2.writes.length ≤ 1 := by
  cases hk : env.apiKey
  · simp [fetchMovies, hk, searchCatch, searchFinally]
  · cases hf : env.fetchResult with
    | error e => simp [fetchMovies, hk, hf, searchCatch, searchFinally]
    | ok resp =>
      obtain ⟨rok, flag, ef, res⟩ := resp
      cases rok <;> cases flag <;> by_cases hq : q = [] <;>
        rcases res with _ | (_ | ⟨r, rs⟩) <;>
        cases hu : env.updateResult <;>
        simp [fetchMovies, hk, hf, hq, hu, searchCatch, searchFinally]

/-- Claim C10 (counterexample): the claim states that the movie list is
reset to empty only on a semantic (embedded-flag) error; at the concrete
run below a semantically successful response with an empty results array
also empties a previously non-empty displayed list, with no error
message. -/
theorem search_success_empty_results_clears_list_counterexample :
    (fetchMovies envEmptyResults [] sPrev).1.movieList = [] ∧
    (fetchMovies envEmptyResults [] sPrev).1.errorMessage = "" ∧
    sPrev.movieList ≠ [] := by decide

/-- Claim C10 (amended): the movie list after a run obeys the frame
condition `specMovieListAfter` — unchanged on a configuration or transport
failure, cleared on a semantic error, and equal to the fetched results
(possibly empty) on every other ok response — and the loading flag is
false after every invocation completes, regardless of outcome. -/
theorem search_movie_list_frame
    (env : SearchEnv) (q : Query) (s0 : SearchState) :
    (fetchMovies env q s0).1.movieList = specMovieListAfter env s0 ∧
    (fetchMovies env q s0).1.isLoading = false := by
  cases hk : env.apiKey
  · simp [fetchMovies, specMovieListAfter, hk, searchCatch, searchFinally]
  · cases hf : env.fetchResult with
    | error e =>
      simp [fetchMovies, specMovieListAfter, hk, hf, searchCatch, searchFinally]
    | ok resp =>
      obtain ⟨rok, flag, ef, res⟩ := resp
      cases rok <;> cases flag <;> by_cases hq : q = [] <;>
        rcases res with _ | (_ | ⟨r, rs⟩) <;>
        cases hu : env.updateResult <;>
        simp [fetchMovies, specMovieListAfter, hk, hf, hq, hu,
          searchCatch, searchFinally]
